import Mathlib

/-!
Shallow embedding of the v8-monolith build orchestrator (src/index.js) and
proofs about the claims of its specification.

Modelling conventions:
- JS strings are Lean `String`s (all data involved is ASCII, so JS UTF-16
  code units coincide with Lean `Char`s); JS string methods are re-implemented
  over `List Char` (`splitChar` for `split(sep)`, `subIndexOf` for `indexOf`,
  `List.drop` for `substring(i, s.length)`).
- The promise returned by `run` is modelled by its outcome as a function of
  the child-process event that settles it (`exit` with a code, or `error`).
- File-system state is passed explicitly as an existence oracle
  `String → Bool`; external tool invocations are reified as an `Invocation`
  trace so that "zero gn/ninja invocations" is a statement about a list.
- The single mutable `args` object of the script is modelled as heap cell
  number 0; each `buildV8` call in the full-matrix branch records the
  reference it receives (`argsRef`) and the cell's contents at the moment of
  the call (`snapshot`).
- JS `undefined` flowing into `path.resolve` is modelled by `JsValue` and an
  `Except` result, mirroring the `TypeError` Node throws there.
-/

namespace V8M

/-! ## JS string primitives -/

/-- JS `s.split(sep)` for a one-character separator, over char lists:
`"" ↦ [""]`, separators produce empty pieces, no trimming. -/
def splitChar (sep : Char) : List Char → List (List Char)
  | [] => [[]]
  | c :: rest =>
    match splitChar sep rest with
    | [] => [[c]]
    | t :: ts => if c = sep then [] :: t :: ts else (c :: t) :: ts

/-- Index of the first occurrence of `pat` as a contiguous sublist of `s`
(JS `s.indexOf(pat)` when it does not return `-1`). -/
def subIndexOf (pat : List Char) : List Char → Option Nat
  | [] => if pat = [] then some 0 else none
  | c :: rest =>
    if pat.isPrefixOf (c :: rest) then some 0
    else (subIndexOf pat rest).map (· + 1)

/-- JS `s.indexOf(pat)` with its `-1` convention. -/
def jsIndexOf (s pat : List Char) : Int :=
  match subIndexOf pat s with
  | some n => (n : Int)
  | none => -1

/-- Index of `x` in `l` (JS `l.indexOf(x)` for a present element; returns
`l.length` when absent, which the script never hits). -/
def idxIn (x : String) : List String → Nat
  | [] => 0
  | y :: ys => if y = x then 0 else idxIn x ys + 1

/-- JS `s.replace(/\"/g, "")`: drop every double-quote character. -/
def stripQuotes (s : String) : String :=
  String.mk (s.data.filter (fun c => c ≠ '"'))

/-- JS `s.trim()`. -/
def jsTrim (s : String) : String :=
  String.mk (((s.data.dropWhile Char.isWhitespace).reverse.dropWhile Char.isWhitespace).reverse)

/-- JS `s.replace(/\"/g, "\\\"")`: escape every double quote with a backslash. -/
def escapeQuotes (s : String) : String :=
  String.mk (s.data.flatMap (fun c => if c = '"' then ['\\', '"'] else [c]))

theorem strAppendAssoc : ∀ (a b c : String), a ++ b ++ c = a ++ (b ++ c)
  | ⟨a⟩, ⟨b⟩, ⟨c⟩ => congrArg String.mk (List.append_assoc a b c)

/-! ## The `run` helper (src/index.js lines 76-89)

`run` wraps `child_process.exec` in a promise with
`p.on("exit", res); p.on("error", rej)`: the promise is settled by whichever
event fires — `exit` (with the child's exit code) resolves it, `error`
(spawn failure) rejects it. -/

/-- The child-process event that settles the promise created by `run`. -/
inductive ProcEvent where
  | exit (code : Int)
  | error (msg : String)
deriving DecidableEq

/-- Outcome of a settled promise. -/
inductive RunOutcome where
  | resolved (code : Int)
  | rejected (msg : String)
deriving DecidableEq

/-- How `run`'s promise settles for each child-process event:
`p.on("exit", res)` resolves with the exit code (whatever it is),
`p.on("error", rej)` rejects. -/
def runOutcome : ProcEvent → RunOutcome
  | .exit code => .resolved code
  | .error msg => .rejected msg

def RunOutcome.isRejected : RunOutcome → Bool
  | .rejected _ => true
  | .resolved _ => false

/-- `await`-semantics of the pipeline: after `await run(...)` the caller
continues exactly when the promise resolved (a rejection propagates and
aborts the enclosing async function). -/
def pipelineContinues (ev : ProcEvent) : Bool :=
  !(runOutcome ev).isRejected

/-! ## Build configuration (src/index.js lines 217-233) -/

/-- The `args` object literal, fields in source order. -/
structure Args where
  is_debug : Bool
  target_cpu : String
  v8_target_cpu : String
  is_component_build : Bool
  v8_static_library : Bool
  v8_monolithic : Bool
  v8_use_external_startup_data : Bool
  v8_enable_test_features : Bool
  v8_enable_i18n_support : Bool
  treat_warnings_as_errors : Bool
  symbol_level : Nat
  v8_use_snapshot : Bool
  is_clang : Bool
  use_sysroot : Bool
  use_custom_libcxx : Bool
deriving DecidableEq

/-- The initial `args` object in full-matrix mode: `isDebug = true`,
`platform = "x64"` (unquoted in this mode), the fixed literals of
lines 217-233, and `is_clang` from the prompt/platform. -/
def initialArgs (useClang : Bool) : Args :=
  { is_debug := true
    target_cpu := "x64"
    v8_target_cpu := "x64"
    is_component_build := false
    v8_static_library := true
    v8_monolithic := true
    v8_use_external_startup_data := false
    v8_enable_test_features := false
    v8_enable_i18n_support := false
    treat_warnings_as_errors := false
    symbol_level := 0
    v8_use_snapshot := false
    is_clang := useClang
    use_sysroot := false
    use_custom_libcxx := false }

/-! ## Output directory naming (src/index.js line 155) -/

/-- `getV8OutPath`: `` `out.gn/${String(args.target_cpu).replace(/\"/g, "")}.${args.is_debug ? "debug" : "release"}` ``. -/
def getV8OutPath (a : Args) : String :=
  "out.gn/" ++ stripQuotes a.target_cpu ++ "." ++ (if a.is_debug then "debug" else "release")

/-- The spec's wording for the output directory name: the architecture string
with quotes stripped, suffixed `.debug` or `.release`, under the `out.gn`
prefix. Stated from the spec, to be compared with `getV8OutPath`. -/
def specOutDirName (arch : String) (dbg : Bool) : String :=
  "out.gn/" ++ stripQuotes arch ++ (if dbg then ".debug" else ".release")

/-- C9: the output directory name is a pure function of the cell's
architecture string and debug flag, equal to the spec's formula (quotes
stripped, `.debug`/`.release` suffix, `out.gn/` prefix); architecture
`"x64"` with debug yields `out.gn/x64.debug` and a quoted `"\"x86\""`
release cell yields `out.gn/x86.release`. -/
theorem getV8OutPath_matches_spec (a : Args) :
    getV8OutPath a = specOutDirName a.target_cpu a.is_debug ∧
    getV8OutPath { initialArgs true with target_cpu := "x64", is_debug := true } = "out.gn/x64.debug" ∧
    getV8OutPath { initialArgs true with target_cpu := "\"x86\"", is_debug := false } = "out.gn/x86.release" := by
  refine ⟨?_, by decide, by decide⟩
  unfold getV8OutPath specOutDirName
  cases a.is_debug <;> simp only [if_true, if_false, Bool.false_eq_true] <;>
    rw [strAppendAssoc] <;> rfl

/-! ## Workspace paths (src/index.js lines 42-51) and `path.resolve` -/

/-- A value flowing into `path.resolve`: a string, or JS `undefined`. -/
inductive JsValue where
  | str (s : String)
  | undef
deriving DecidableEq

/-- The `paths` object literal as a property map (property name ↦ resolved
path), keyed exactly by the keys present in the source. `root` stands for
`ROOT_DIR`. -/
def pathsObject (root : String) : List (String × String) :=
  [("thirdParty", root ++ "/third_party"),
   ("depot_tools", root ++ "/third_party/depot_tools"),
   ("v8", root ++ "/third_party/v8"),
   ("v8Src", root ++ "/third_party/v8/v8"),
   ("v8Out", root ++ "/third_party/v8/v8/out.gn"),
   ("build", root ++ "/build"),
   ("buildIncludes", root ++ "/build/include"),
   ("releases", root ++ "/releases")]

/-- JS property access `paths.k`: `undefined` when the key is absent. -/
def pathsProp (root : String) (k : String) : JsValue :=
  match (pathsObject root).find? (fun p => p.1 = k) with
  | some p => JsValue.str p.2
  | none => JsValue.undef

/-- `path.resolve(root, ...segs)` for relative string segments; Node throws
`TypeError [ERR_INVALID_ARG_TYPE]` as soon as any argument is `undefined`. -/
def resolveSegs (root : String) (segs : List JsValue) : Except String String :=
  if segs.all (fun v => match v with | .str _ => true | .undef => false)
  then Except.ok (String.intercalate "/"
        (root :: segs.map (fun v => match v with | .str s => s | .undef => "")))
  else Except.error "TypeError [ERR_INVALID_ARG_TYPE]: The \"path\" argument must be of type string. Received undefined"

/-- The directories created by `genLibPaths` (src/index.js lines 53-72):
`build`, then `build/<os>`, `build/<os>/<cpu>`, `build/<os>/<cpu>/<type>`
for the nested loops over `["win32","linux","darwin"]`, `["x86","x64"]`,
`["Release","Debug"]`. -/
def genLibPathsDirs (root : String) : List String :=
  let build := root ++ "/build"
  [build] ++ (["win32", "linux", "darwin"].flatMap (fun o =>
    [build ++ "/" ++ o] ++ (["x86", "x64"].flatMap (fun p =>
      [build ++ "/" ++ o ++ "/" ++ p] ++
        (["Release", "Debug"].map (fun t => build ++ "/" ++ o ++ "/" ++ p ++ "/" ++ t))))))

/-! ## `buildV8` (src/index.js lines 157-181) -/

/-- The platform-specific static-library file name (line 159). -/
def libNameFor (platform : String) : String :=
  if platform = "win32" then "v8_monolith.lib" else "libv8_monolith.a"

/-- `path.resolve(paths.v8Src, outPath, "obj", libName)` (line 160): the
path whose existence is the idempotency check. -/
def artifactBuildPath (root platform outPath : String) : String :=
  root ++ "/third_party/v8/v8" ++ "/" ++ outPath ++ "/obj/" ++ libNameFor platform

/-- JS rendering of the values of the `args` object, in the object's
insertion order, as enumerated by `for (const k in args)` (lines 164-165). -/
def argsPairs (a : Args) : List (String × String) :=
  let b : Bool → String := fun x => if x then "true" else "false"
  [("is_debug", b a.is_debug),
   ("target_cpu", a.target_cpu),
   ("v8_target_cpu", a.v8_target_cpu),
   ("is_component_build", b a.is_component_build),
   ("v8_static_library", b a.v8_static_library),
   ("v8_monolithic", b a.v8_monolithic),
   ("v8_use_external_startup_data", b a.v8_use_external_startup_data),
   ("v8_enable_test_features", b a.v8_enable_test_features),
   ("v8_enable_i18n_support", b a.v8_enable_i18n_support),
   ("treat_warnings_as_errors", b a.treat_warnings_as_errors),
   ("symbol_level", toString a.symbol_level),
   ("v8_use_snapshot", b a.v8_use_snapshot),
   ("is_clang", b a.is_clang),
   ("use_sysroot", b a.use_sysroot),
   ("use_custom_libcxx", b a.use_custom_libcxx)]

/-- The `argStr` built at lines 163-167: `key=value ` pairs concatenated,
trimmed, double quotes escaped. -/
def serializeArgs (a : Args) : String :=
  escapeQuotes (jsTrim (String.join ((argsPairs a).map (fun p => p.1 ++ "=" ++ p.2 ++ " "))))

/-- An external generate/build tool invocation issued by `buildV8`. -/
inductive Invocation where
  | gn (outPath argStr : String)
  | ninja (outPath target : String)
deriving DecidableEq

/-- The external generate/build invocations `buildV8` performs, as a function
of the file-system existence oracle: when the artifact already exists at
`artifactBuildPath` the `if` at line 161 skips both `gn gen` and `ninja`;
otherwise both run, `ninja` targeting `v8_monolith` or `v8` by the
`v8_monolithic` flag (lines 170-171). -/
def buildV8Invocations (fsExists : String → Bool) (root platform outPath : String) (a : Args) :
    List Invocation :=
  if fsExists (artifactBuildPath root platform outPath) then []
  else [Invocation.gn outPath (serializeArgs a),
        Invocation.ninja outPath (if a.v8_monolithic then "v8_monolith" else "v8")]

/-- The destination of the copy at lines 175-180:
`resolve(paths.depLibs, os.platform(), args.target_cpu.replace(/"/g, ""), args.is_debug ? "Debug" : "Release", libName)`.
The `paths` object has no `depLibs` property, so the first segment is
`undefined`. -/
def copyDest (root platform : String) (a : Args) : Except String String :=
  resolveSegs root
    [pathsProp root "depLibs",
     JsValue.str platform,
     JsValue.str (stripQuotes a.target_cpu),
     JsValue.str (if a.is_debug then "Debug" else "Release"),
     JsValue.str (libNameFor platform)]

/-! ## The full-matrix branch (src/index.js lines 251-278)

The script allocates exactly one configuration object (the `args` literal at
line 217) and the `buildAll` branch mutates it in place between builds.  The
heap therefore has a single cell, reference number 0; each `buildV8` call
records the reference it is passed and the cell's contents at the moment of
the call. -/

/-- One `buildV8` invocation of the full-matrix branch: the reference to the
configuration object passed as `args`, the `outPath` argument, and the
object's field values at the moment of the call. -/
structure BuildCall where
  argsRef : Nat
  outPath : String
  snapshot : Args
deriving DecidableEq

/-- The sequence of `buildV8` calls made by the `buildAll` branch on host
`platform`, starting from configuration object contents `args0` (still heap
cell 0): x64 debug, x64 release, then — unless `os.platform() === "linux"`
(line 265) — x86 debug and x86 release, each preceded by in-place mutation
of `target_cpu`/`v8_target_cpu`, `is_debug` and `symbol_level`. -/
def buildAllCalls (platform : String) (args0 : Args) : List BuildCall :=
  let a1 := { args0 with target_cpu := "\"x64\"", v8_target_cpu := "\"x64\"",
                         is_debug := true, symbol_level := 2 }
  let c1 : BuildCall := ⟨0, getV8OutPath a1, a1⟩
  let a2 := { a1 with is_debug := false, symbol_level := 0 }
  let c2 : BuildCall := ⟨0, getV8OutPath a2, a2⟩
  if platform ≠ "linux" then
    let a3 := { a2 with target_cpu := "\"x86\"", v8_target_cpu := "\"x86\"",
                        is_debug := true, symbol_level := 2 }
    let c3 : BuildCall := ⟨0, getV8OutPath a3, a3⟩
    let a4 := { a3 with is_debug := false, symbol_level := 0 }
    let c4 : BuildCall := ⟨0, getV8OutPath a4, a4⟩
    [c1, c2, c3, c4]
  else
    [c1, c2]

/-- The (architecture, is_debug) cell of one build call, architecture with
its quotes stripped. -/
def callCell (c : BuildCall) : String × Bool :=
  (stripQuotes c.snapshot.target_cpu, c.snapshot.is_debug)

/-! ## The single-cell branch (src/index.js lines 313-316)

The `else` branch runs `await buildV8(v8OutPath, args);`.  Its first
argument is the bare identifier `v8OutPath`; evaluating an identifier that
is not bound in any enclosing scope throws a `ReferenceError`. -/

/-- Every identifier in scope inside the `execFn` callback at line 315:
the module-level requires and consts (lines 1-183) and the callback's own
locals (lines 189-235). -/
def execFnScope : List String :=
  ["fs", "path", "exec", "createInterface", "os", "https", "archiver",
   "THIRD_PARTY", "ROOT_DIR", "resolve", "rl", "getInput", "getUserInput",
   "V8", "BUILD", "DEPOT_TOOLS", "paths", "genLibPaths", "LOG", "run",
   "mkdirp", "downloadDepotTools", "unzipDepotTools", "setupDepotTools",
   "fetchV8", "getV8OutPath", "buildV8", "execFn",
   "buildAll", "isDebug", "platform", "useClang", "args", "pathSep",
   "process", "require", "console", "__dirname"]

/-- Evaluating a bare identifier: its value if bound, otherwise a
`ReferenceError`. -/
def evalIdent (scope : List String) (name : String) : Except String String :=
  if scope.contains name then Except.ok name
  else Except.error ("ReferenceError: " ++ name ++ " is not defined")

/-- The evaluation of the first argument expression of the single-cell
branch's `buildV8(v8OutPath, args)` call. -/
def singleCellOutPathArg : Except String String :=
  evalIdent execFnScope "v8OutPath"

/-! ## Release packaging (src/index.js lines 280-311) -/

/-- `path.resolve(paths.releases, `v8-${version}-${os.platform()}.zip`)`
(line 300). -/
def releaseZipPath (root platform version : String) : String :=
  (root ++ "/releases") ++ "/" ++ ("v8-" ++ version ++ "-" ++ platform ++ ".zip")

/-- The spec's wording of the archive location:
`releases/<library>-<version>-<hostOS>.zip` under the workspace root.
Stated from the spec, to be compared with `releaseZipPath`. -/
def specReleaseZipPath (root library version hostOS : String) : String :=
  root ++ "/releases/" ++ (library ++ "-" ++ version ++ "-" ++ hostOS ++ ".zip")

/-- An observable process action of the archive close handler. -/
inductive ProcessAction where
  | print (msg : String)
  | exit (code : Nat)
deriving DecidableEq

/-- The body of `archive.on("close", ...)` (lines 303-307):
`console.log("Done! :D")` then `process.exit()`, which exits with code 0. -/
def archiveOnClose : List ProcessAction :=
  [ProcessAction.print "Done! :D", ProcessAction.exit 0]

/-! ## Version extraction (src/index.js lines 283-299)

```
const targets = ["V8_MAJOR_VERSION", "V8_MINOR_VERSION", "V8_BUILD_NUMBER", "V8_PATCH_LEVEL"];
let foundTargets = [0, 0, 0, 0];
fs.readFileSync(versionsFile, "utf-8").split("\n").filter(s => {
  const f = targets.find(target => s.split(" ").includes(target));
  if (f) {
    const index = targets.indexOf(f);
    foundTargets[index] = s.substring(s.indexOf(f) + f.length + 1, s.length);
  }
});
const version = foundTargets.join(".");
```

A slot still holding its initial number `0` renders as `"0"` in `join`;
a slot that was assigned holds the line's raw tail as a string. -/

/-- The four version-constant identifiers, in the array's order. -/
def targets : List String :=
  ["V8_MAJOR_VERSION", "V8_MINOR_VERSION", "V8_BUILD_NUMBER", "V8_PATCH_LEVEL"]

def targetsCl : List (List Char) := targets.map String.data

/-- `s.split(" ")` of one line. -/
def lineTokens (line : List Char) : List (List Char) := splitChar ' ' line

/-- `targets.find(target => s.split(" ").includes(target))`: the first
identifier (in `targets` order) occurring as a whole space-separated token
of the line. -/
def lineMatch (line : List Char) : Option (List Char) :=
  targetsCl.find? (fun t => (lineTokens line).contains t)

/-- `s.substring(s.indexOf(f) + f.length + 1, s.length)`: the raw remainder
of the line starting one character past the end of the identifier's first
occurrence (JS `substring` clamps a negative start to 0). -/
def lineValue (line f : List Char) : List Char :=
  line.drop (jsIndexOf line f + (f.length : Int) + 1).toNat

/-- One step of the scan: a matching line assigns its raw tail into the
slot of its matched identifier, other lines leave the array unchanged. -/
def lineStep (acc : List (Option (List Char))) (line : List Char) : List (Option (List Char)) :=
  match lineMatch line with
  | some f => acc.set (idxIn (String.mk f) targets) (some (lineValue line f))
  | none => acc

/-- The `foundTargets` array after scanning the given lines, starting from
`[0, 0, 0, 0]` (`none` models a slot still holding the number 0). -/
def foundFromLines (ls : List (List Char)) : List (Option (List Char)) :=
  ls.foldl lineStep [none, none, none, none]

/-- `foundTargets` computed from the whole file content (split on `"\n"`). -/
def foundTargets (content : String) : List (Option (List Char)) :=
  foundFromLines (splitChar '\n' content.data)

/-- `Array.prototype.join(".")` over the mixed number/string array. -/
def joinDot : List (List Char) → List Char
  | [] => []
  | [x] => x
  | x :: y :: ys => x ++ '.' :: joinDot (y :: ys)

/-- `const version = foundTargets.join(".")`. -/
def extractedVersion (content : String) : String :=
  String.mk (joinDot ((foundTargets content).map (fun v => v.getD ['0'])))

/-! ## Claim theorems -/

/-- C1, counterexample: at the concrete exit code 1 (nonzero), the promise
created by `run` settles as `resolved 1`, not as a rejection, and the
awaiting pipeline continues — refuting the claim that a nonzero exit code
rejects the stage's promise and aborts the pipeline. -/
theorem run_nonzero_exit_resolves_cex :
    (1 : Int) ≠ 0 ∧
    runOutcome (ProcEvent.exit 1) = RunOutcome.resolved 1 ∧
    (runOutcome (ProcEvent.exit 1)).isRejected = false ∧
    pipelineContinues (ProcEvent.exit 1) = true := by
  refine ⟨by decide, rfl, rfl, rfl⟩

/-- C1, amended: `run`'s promise resolves with the child's exit code for
every `exit` event — nonzero codes included — and the pipeline continues;
only a child-process `error` event (spawn failure) rejects the promise and
aborts the enclosing stage. -/
theorem run_outcome_amended (code : Int) (msg : String) :
    runOutcome (ProcEvent.exit code) = RunOutcome.resolved code ∧
    pipelineContinues (ProcEvent.exit code) = true ∧
    runOutcome (ProcEvent.error msg) = RunOutcome.rejected msg ∧
    pipelineContinues (ProcEvent.error msg) = false :=
  ⟨rfl, rfl, rfl, rfl⟩

/-- C2, code bug: the copy destination of `buildV8` is built from
`paths.depLibs`, but the `paths` object has no `depLibs` property, so
`path.resolve` receives `undefined` and throws a `TypeError` — the artifact
is never copied to the `build/<hostOS>/<arch>/<type>/` layout, even though
`genLibPaths` creates exactly that directory (shown for the x64 Debug cell
on linux). -/
theorem copyDest_depLibs_undefined_bug :
    pathsProp "R" "depLibs" = JsValue.undef ∧
    copyDest "R" "linux"
        { initialArgs true with target_cpu := "\"x64\"", v8_target_cpu := "\"x64\"",
                                is_debug := true, symbol_level := 2 } =
      Except.error "TypeError [ERR_INVALID_ARG_TYPE]: The \"path\" argument must be of type string. Received undefined" ∧
    ("R/build/linux/x64/Debug") ∈ genLibPathsDirs "R" := by
  refine ⟨rfl, rfl, by decide⟩

/-- C3, code bug: the single-cell branch calls `buildV8(v8OutPath, args)`,
but no binding named `v8OutPath` exists in any enclosing scope, so
evaluating the argument throws a `ReferenceError` before any build starts —
single-cell mode cannot build its one requested configuration and terminate
naturally. -/
theorem singleCell_v8OutPath_reference_error :
    singleCellOutPathArg = Except.error "ReferenceError: v8OutPath is not defined" ∧
    execFnScope.contains "v8OutPath" = false := by
  refine ⟨rfl, by decide⟩

/-- C4, counterexample: in full-matrix mode on host `win32`, every one of
the four `buildV8` calls receives the same configuration object (heap
reference 0) — not its own derived copy — and the contents observed by the
first call differ from the contents the same object holds at the second
call, so the object observed by one cell's build is mutated by the
processing of the next cell. -/
theorem buildAll_shared_args_object_cex :
    ((buildAllCalls "win32" (initialArgs false)).map BuildCall.argsRef) = [0, 0, 0, 0] ∧
    ((buildAllCalls "win32" (initialArgs false)).map BuildCall.snapshot).get? 0 ≠
      ((buildAllCalls "win32" (initialArgs false)).map BuildCall.snapshot).get? 1 := by
  refine ⟨rfl, by decide⟩

/-- C4, amended: all cells of full-matrix mode share the single
configuration object allocated at line 217 (reference 0), mutated in place
before each build; because the builds are awaited strictly sequentially,
each `buildV8` call still observes exactly its own cell's specialization of
`target_cpu`/`v8_target_cpu`, `is_debug` and `symbol_level` at the moment it
is invoked, for every initial configuration. -/
theorem buildAll_sequential_specialization (args0 : Args) :
    ((buildAllCalls "win32" args0).map BuildCall.argsRef = [0, 0, 0, 0]) ∧
    ((buildAllCalls "darwin" args0).map BuildCall.argsRef = [0, 0, 0, 0]) ∧
    ((buildAllCalls "linux" args0).map BuildCall.argsRef = [0, 0]) ∧
    ((buildAllCalls "win32" args0).map
        (fun c => (c.snapshot.target_cpu, c.snapshot.v8_target_cpu,
                   c.snapshot.is_debug, c.snapshot.symbol_level)) =
      [("\"x64\"", "\"x64\"", true, 2), ("\"x64\"", "\"x64\"", false, 0),
       ("\"x86\"", "\"x86\"", true, 2), ("\"x86\"", "\"x86\"", false, 0)]) ∧
    ((buildAllCalls "linux" args0).map
        (fun c => (c.snapshot.target_cpu, c.snapshot.v8_target_cpu,
                   c.snapshot.is_debug, c.snapshot.symbol_level)) =
      [("\"x64\"", "\"x64\"", true, 2), ("\"x64\"", "\"x64\"", false, 0)]) :=
  ⟨rfl, rfl, rfl, rfl, rfl⟩

/-- C5: whenever the file-system oracle reports the artifact present at the
cell's expected path (`<v8 source>/<outPath>/obj/<platform library name>`),
`buildV8` issues zero external `gn`/`ninja` invocations, for every
configuration. -/
theorem buildV8_skips_when_artifact_exists (fsExists : String → Bool)
    (root platform outPath : String) (a : Args)
    (h : fsExists (artifactBuildPath root platform outPath) = true) :
    buildV8Invocations fsExists root platform outPath a = [] := by
  simp [buildV8Invocations, h]

/-- Witness for C5 at a concrete input: the all-true oracle, host linux,
output directory `out.gn/x64.debug`, initial configuration. -/
theorem buildV8_skips_when_artifact_exists_witness :
    (fun _ : String => true) (artifactBuildPath "R" "linux" "out.gn/x64.debug") = true ∧
    buildV8Invocations (fun _ : String => true) "R" "linux" "out.gn/x64.debug" (initialArgs true) = [] :=
  ⟨rfl, buildV8_skips_when_artifact_exists (fun _ : String => true) "R" "linux" "out.gn/x64.debug"
    (initialArgs true) rfl⟩

/-- C7: full-matrix mode processes its cells in the fixed order x64 debug,
x64 release, x86 debug, x86 release (shown for win32 and darwin), while on
linux — the host OS with the x86 toolchain limitation — only the x64 debug
and x64 release cells are attempted and no x86 cell ever appears in the
invocation sequence, for every initial configuration. -/
theorem buildAll_cell_order_and_x86_exclusion (args0 : Args) :
    ((buildAllCalls "linux" args0).map callCell = [("x64", true), ("x64", false)]) ∧
    ((buildAllCalls "win32" args0).map callCell =
      [("x64", true), ("x64", false), ("x86", true), ("x86", false)]) ∧
    ((buildAllCalls "darwin" args0).map callCell =
      [("x64", true), ("x64", false), ("x86", true), ("x86", false)]) ∧
    ((buildAllCalls "linux" args0).filter (fun c => (callCell c).1 = "x86") = []) :=
  ⟨rfl, rfl, rfl, rfl⟩

/-- C8: the release zip is created at
`<root>/releases/v8-<version>-<hostOS>.zip`, exactly the spec's
`releases/<library>-<version>-<hostOS>.zip` with library `v8`, and the
archive's close handler prints the completion message and exits the process
with code 0. -/
theorem releaseZip_path_and_exit (root platform version : String) :
    releaseZipPath root platform version = specReleaseZipPath root "v8" version platform ∧
    archiveOnClose = [ProcessAction.print "Done! :D", ProcessAction.exit 0] := by
  constructor
  · show (root ++ "/releases") ++ "/" ++ ("v8-" ++ version ++ "-" ++ platform ++ ".zip") =
      root ++ "/releases/" ++ ("v8" ++ "-" ++ version ++ "-" ++ platform ++ ".zip")
    rw [show ("v8" : String) ++ "-" = "v8-" from rfl,
        String.append_assoc root "/releases" "/",
        show ("/releases" : String) ++ "/" = "/releases/" from rfl]
  · rfl

/-! ### Helper lemmas for the version-extractor claims -/

theorem length_lineStep (acc : List (Option (List Char))) (l : List Char) :
    (lineStep acc l).length = acc.length := by
  cases h : lineMatch l <;> simp [lineStep, h]

theorem length_foldl_lineStep : ∀ (ls : List (List Char)) (acc : List (Option (List Char))),
    (ls.foldl lineStep acc).length = acc.length
  | [], _ => rfl
  | l :: ls, acc => by
    rw [List.foldl_cons, length_foldl_lineStep ls, length_lineStep]

theorem lineStep_eq_set {acc : List (Option (List Char))} {l f : List Char}
    (h : lineMatch l = some f) :
    lineStep acc l = acc.set (idxIn (String.mk f) targets) (some (lineValue l f)) := by
  simp [lineStep, h]

theorem get?_set_self : ∀ (l : List (Option (List Char))) (i : Nat) (v : Option (List Char)),
    i < l.length → (l.set i v).get? i = some v
  | [], i, _, h => absurd h (Nat.not_lt_zero i)
  | _ :: _, 0, _, _ => rfl
  | _ :: l, i + 1, v, h => get?_set_self l i v (Nat.lt_of_succ_lt_succ h)

theorem idxIn_lt_of_mem : ∀ {l : List String} {x : String}, x ∈ l → idxIn x l < l.length := by
  intro l
  induction l with
  | nil => intro x h; cases h
  | cons y ys ih =>
    intro x h
    by_cases hy : y = x
    · simp [idxIn, hy]
    · rw [idxIn, if_neg hy]
      have hx : x ∈ ys := by
        rcases List.mem_cons.mp h with h1 | h2
        · exact absurd h1.symm hy
        · exact h2
      simpa [List.length_cons] using Nat.succ_lt_succ (ih hx)

theorem mk_mem_targets {f : List Char} (h : f ∈ targetsCl) : String.mk f ∈ targets := by
  rcases List.mem_map.mp h with ⟨t, ht, rfl⟩
  exact ht

/-- C6: the extractor scans the file line by line, matching the four version
constants in a line's space-tokenized content and taking the text after the
identifier and one separator as that slot's value: the four `#define` lines
with values 9, 0, 1, 0, in scrambled order among unrelated lines, yield
`"9.0.1.0"`; a file missing the patch-level line still yields `"9.0.1.0"`
because a missing constant silently stays `0`, and a file with no version
constants at all yields `"0.0.0.0"` with no error. -/
theorem extractedVersion_order_and_defaults :
    extractedVersion "// junk\n#define V8_BUILD_NUMBER 1\nunrelated line\n#define V8_MAJOR_VERSION 9\n#define V8_PATCH_LEVEL 0\n#define V8_MINOR_VERSION 0" = "9.0.1.0" ∧
    extractedVersion "#define V8_MAJOR_VERSION 9\n#define V8_MINOR_VERSION 0\n#define V8_BUILD_NUMBER 1" = "9.0.1.0" ∧
    extractedVersion "no version constants at all" = "0.0.0.0" := by
  refine ⟨by decide, by decide, by decide⟩

/-- C10: the value recorded for a version constant is the raw remainder of
the matching line starting one character past the end of the identifier —
no parsing, validation or trimming, so trailing text stays verbatim (second
conjunct) — and when several lines match the same constant, the value of the
last such line overwrites the earlier ones: appending a line `l` matching
identifier `f` to any line list sets `f`'s slot to `l`'s raw tail (first
conjunct; concrete overwrite in the third conjunct). -/
theorem foundTargets_last_line_wins (ls : List (List Char)) (l f : List Char)
    (h : lineMatch l = some f) :
    (foundFromLines (ls ++ [l])).get? (idxIn (String.mk f) targets) =
      some (some (lineValue l f)) ∧
    lineValue ("#define V8_MAJOR_VERSION 9 // trailing").data ("V8_MAJOR_VERSION").data =
      ("9 // trailing").data ∧
    extractedVersion "#define V8_MAJOR_VERSION 8\n#define V8_MAJOR_VERSION 9 tail" = "9 tail.0.0.0" := by
  refine ⟨?_, by decide, by decide⟩
  have hmem : f ∈ targetsCl := List.mem_of_find?_eq_some h
  have hidx : idxIn (String.mk f) targets < 4 := idxIn_lt_of_mem (mk_mem_targets hmem)
  rw [foundFromLines, List.foldl_append, List.foldl_cons, List.foldl_nil, lineStep_eq_set h]
  refine get?_set_self _ _ _ ?_
  rw [length_foldl_lineStep]
  exact hidx

/-- Witness for C10 at a concrete input: the one-line list whose line
defines `V8_MINOR_VERSION` as `7`. -/
theorem foundTargets_last_line_wins_witness :
    (foundFromLines ([] ++ [("#define V8_MINOR_VERSION 7").data])).get?
        (idxIn (String.mk (("V8_MINOR_VERSION").data)) targets) =
      some (some (lineValue ("#define V8_MINOR_VERSION 7").data ("V8_MINOR_VERSION").data)) ∧
    lineValue ("#define V8_MAJOR_VERSION 9 // trailing").data ("V8_MAJOR_VERSION").data =
      ("9 // trailing").data ∧
    extractedVersion "#define V8_MAJOR_VERSION 8\n#define V8_MAJOR_VERSION 9 tail" = "9 tail.0.0.0" :=
  foundTargets_last_line_wins [] ("#define V8_MINOR_VERSION 7").data ("V8_MINOR_VERSION").data
    (by decide)

/-- Witness for C1's amended theorem at exit code 2 and a concrete spawn
error message. -/
theorem run_outcome_amended_witness :
    runOutcome (ProcEvent.exit 2) = RunOutcome.resolved 2 ∧
    pipelineContinues (ProcEvent.exit 2) = true ∧
    runOutcome (ProcEvent.error "spawn gn ENOENT") = RunOutcome.rejected "spawn gn ENOENT" ∧
    pipelineContinues (ProcEvent.error "spawn gn ENOENT") = false :=
  run_outcome_amended 2 "spawn gn ENOENT"

/-- Witness for C4's amended theorem at the concrete initial configuration. -/
theorem buildAll_sequential_specialization_witness :
    ((buildAllCalls "win32" (initialArgs true)).map BuildCall.argsRef = [0, 0, 0, 0]) ∧
    ((buildAllCalls "darwin" (initialArgs true)).map BuildCall.argsRef = [0, 0, 0, 0]) ∧
    ((buildAllCalls "linux" (initialArgs true)).map BuildCall.argsRef = [0, 0]) ∧
    ((buildAllCalls "win32" (initialArgs true)).map
        (fun c => (c.snapshot.target_cpu, c.snapshot.v8_target_cpu,
                   c.snapshot.is_debug, c.snapshot.symbol_level)) =
      [("\"x64\"", "\"x64\"", true, 2), ("\"x64\"", "\"x64\"", false, 0),
       ("\"x86\"", "\"x86\"", true, 2), ("\"x86\"", "\"x86\"", false, 0)]) ∧
    ((buildAllCalls "linux" (initialArgs true)).map
        (fun c => (c.snapshot.target_cpu, c.snapshot.v8_target_cpu,
                   c.snapshot.is_debug, c.snapshot.symbol_level)) =
      [("\"x64\"", "\"x64\"", true, 2), ("\"x64\"", "\"x64\"", false, 0)]) :=
  buildAll_sequential_specialization (initialArgs true)

/-- Witness for C7's theorem at the concrete initial configuration. -/
theorem buildAll_cell_order_and_x86_exclusion_witness :
    ((buildAllCalls "linux" (initialArgs false)).map callCell = [("x64", true), ("x64", false)]) ∧
    ((buildAllCalls "win32" (initialArgs false)).map callCell =
      [("x64", true), ("x64", false), ("x86", true), ("x86", false)]) ∧
    ((buildAllCalls "darwin" (initialArgs false)).map callCell =
      [("x64", true), ("x64", false), ("x86", true), ("x86", false)]) ∧
    ((buildAllCalls "linux" (initialArgs false)).filter (fun c => (callCell c).1 = "x86") = []) :=
  buildAll_cell_order_and_x86_exclusion (initialArgs false)

/-- Witness for C8's theorem at a concrete root, host OS and version. -/
theorem releaseZip_path_and_exit_witness :
    releaseZipPath "R" "linux" "9.0.1.0" = specReleaseZipPath "R" "v8" "9.0.1.0" "linux" ∧
    archiveOnClose = [ProcessAction.print "Done! :D", ProcessAction.exit 0] :=
  releaseZip_path_and_exit "R" "linux" "9.0.1.0"

/-- Witness for C9's theorem at the concrete initial configuration. -/
theorem getV8OutPath_matches_spec_witness :
    getV8OutPath (initialArgs true) =
      specOutDirName (initialArgs true).target_cpu (initialArgs true).is_debug ∧
    getV8OutPath { initialArgs true with target_cpu := "x64", is_debug := true } = "out.gn/x64.debug" ∧
    getV8OutPath { initialArgs true with target_cpu := "\"x86\"", is_debug := false } = "out.gn/x86.release" :=
  getV8OutPath_matches_spec (initialArgs true)

end V8M
